import Mathlib

/- Shallow embedding of the keos-api connection/resilience layer:
   the MQTT bridge (src/config/mqtt.js), the relational client
   (src/config/database.js) and the MongoDB document-store helper.
   External transports (broker, MySQL driver, MongoDB driver, JSON
   builtins) are modelled as explicit environment parameters; every
   JavaScript exception path is modelled with Except. -/

namespace Keos

/-- Scalar values stored in JS objects handled by this layer. A Date
value is modelled by its timestamp. -/
inductive DocVal where
  | str (s : String)
  | int (n : Int)
  | bool (b : Bool)
  | date (t : Nat)
  | null
deriving DecidableEq, Repr

/-- A JS object as an ordered association list of fields. -/
abbrev Doc := List (String × DocVal)

/-- JS property write on an object literal: overrides the value in place
when the key exists, appends the key otherwise (insertion order kept,
as in a JS spread followed by an explicit field). -/
def setKey : Doc → String → DocVal → Doc
  | [], k, v => [(k, v)]
  | (k0, v0) :: rest, k, v =>
    if k0 = k then (k, v) :: rest else (k0, v0) :: setKey rest k v

/-- JS property read: value of the first occurrence of the key. -/
def getKey : Doc → String → Option DocVal
  | [], _ => none
  | (k0, v0) :: rest, k => if k0 = k then some v0 else getKey rest k

/-- Parsed JSON values, used for opportunistically parsed MQTT payloads. -/
inductive JsonV where
  | null
  | bool (b : Bool)
  | num (n : Int)
  | str (s : String)
  | arr (elems : List JsonV)
  | obj (fields : List (String × JsonV))

/- ===== src/config/mqtt.js ===== -/

/-- Fields of the mqtt section of the broker config (mqtt-config.json). -/
structure MqttSettings where
  host : String
  port : Nat
  username : String
  password : String
  clientId : String
  clean : Bool
  reconnectPeriod : Nat
  connectTimeout : Nat
  rejectUnauthorized : Bool
deriving DecidableEq, Repr

/-- The whole broker configuration object: mqtt settings plus the
topics / qos / retain tables (JS objects, modelled as ordered maps). -/
structure MqttConfig where
  mqtt : MqttSettings
  topics : List (String × String)
  qos : List (String × Nat)
  retain : List (String × Bool)
deriving DecidableEq, Repr

/-- The hard-coded fallback configuration built in the catch branch of
loadMqttConfig (src/config/mqtt.js lines 19-46). `rand` stands for the
random suffix Math.random().toString(16).slice(3). -/
def fallbackMqttConfig (rand : String) : MqttConfig :=
  { mqtt := { host := "10.5.50.48", port := 1883, username := "mqtt",
              password := "mqtt", clientId := "keos-api-" ++ rand,
              clean := true, reconnectPeriod := 1000,
              connectTimeout := 30 * 1000, rejectUnauthorized := false }
    topics := [("prefix", "hotel")]
    qos := [("default", 0), ("device_commands", 1), ("notifications", 1),
            ("config", 1), ("status", 1)]
    retain := [("default", false), ("config", true), ("status", true)] }

/-- loadMqttConfig (src/config/mqtt.js lines 6-48). The external config
resource is `some config` when the file is readable and valid JSON and
`none` when it is malformed or unreadable; in the latter case the JS
try/catch swallows the error and returns the fallback configuration.
On success the clientId gets the fresh random suffix appended. -/
def loadMqttConfig (resource : Option MqttConfig) (rand : String) : MqttConfig :=
  match resource with
  | some config =>
      { config with
        mqtt := { config.mqtt with
                  clientId := config.mqtt.clientId ++ "-" ++ rand } }
  | none => fallbackMqttConfig rand

/-- The mqtt.js client handle (mqttClient): its clientId and whether the
broker has acknowledged the connection (the connected flag). -/
structure MqttClient where
  clientId : String
  connected : Bool
deriving DecidableEq, Repr

/-- Module-level mutable state of src/config/mqtt.js: the CONFIG object,
the MQTT_CONFIG object (initially an alias of CONFIG.mqtt, re-assigned
field-wise by reloadConfig) and the mqttClient variable. -/
structure MqttState where
  CONFIG : MqttConfig
  MQTT_CONFIG : MqttSettings
  client : Option MqttClient
deriving DecidableEq, Repr

/-- Module initialization (lines 50-55): CONFIG = loadMqttConfig(),
MQTT_CONFIG = CONFIG.mqtt, mqttClient = null. -/
def initMqttState (resource : Option MqttConfig) (rand : String) : MqttState :=
  let c := loadMqttConfig resource rand
  { CONFIG := c, MQTT_CONFIG := c.mqtt, client := none }

/-- connectMQTT (lines 58-86): calls mqtt.connect(MQTT_CONFIG) - no new
client identifier is computed here - and resolves once the broker acks
(`ack`). Returns the new state together with the client identifier the
invocation handed to the transport. -/
def connectMQTT (st : MqttState) (ack : Bool) : MqttState × String :=
  let cid := st.MQTT_CONFIG.clientId
  ({ st with client := some { clientId := cid, connected := ack } }, cid)

/-- isConnected (lines 150-152): mqttClient && mqttClient.connected. -/
def isConnected (st : MqttState) : Bool :=
  match st.client with
  | none => false
  | some c => c.connected

/-- A publish payload: either a string or a structured value that will
be serialized with JSON.stringify. -/
inductive JsMessage where
  | str (s : String)
  | json (j : JsonV)

/-- Optional per-message publish options; a missing field is undefined. -/
structure PublishOpts where
  qos : Option Nat := none
  retain : Option Bool := none

/-- What a successful publish handed to the broker transport. -/
structure PublishRecord where
  topic : String
  payload : String
  qos : Option Nat
  retain : Option Bool
deriving DecidableEq, Repr

/-- publishMessage (lines 89-114). `stringify` models JSON.stringify;
`brokerError` models the error argument the transport passes to the
publish callback (none = the broker confirmed the publish). Rejects
immediately when there is no live connection. -/
def publishMessage (st : MqttState) (stringify : JsonV → String)
    (topic : String) (message : JsMessage) (options : PublishOpts)
    (brokerError : Option String) : Except String PublishRecord :=
  if !(isConnected st) then
    .error "MQTT client not connected"
  else
    let payload := match message with
      | .str s => s
      | .json j => stringify j
    let pubQos := match options.qos with
      | some q => some q
      | none => st.CONFIG.qos.lookup "default"
    let pubRetain := match options.retain with
      | some r => some r
      | none => st.CONFIG.retain.lookup "default"
    match brokerError with
    | some e => .error e
    | none =>
        .ok { topic := topic, payload := payload,
              qos := pubQos, retain := pubRetain }

/-- Argument handed to a subscription callback. -/
inductive CallbackArg where
  | parsed (j : JsonV)
  | raw (s : String)

/-- The message handler registered by subscribeToTopic (lines 132-141):
fires the callback only when the received topic strictly equals the
subscribed topic; tries JSON.parse (modelled by `parse`, none meaning
the parse threw) and falls back to the raw text. Returns the argument
the callback is invoked with, or none when the callback is not invoked. -/
def onMessage (topic : String) (parse : String → Option JsonV)
    (receivedTopic : String) (message : String) : Option CallbackArg :=
  if receivedTopic = topic then
    some (match parse message with
          | some j => .parsed j
          | none => .raw message)
  else
    none

/-- subscribeToTopic (lines 117-147): rejects when not connected or when
the transport reports a subscribe error, otherwise registers the topic
(message delivery itself is modelled by onMessage). -/
def subscribeToTopic (st : MqttState) (topic : String)
    (subscribeError : Option String) : Except String String :=
  if !(isConnected st) then
    .error "MQTT client not connected"
  else
    match subscribeError with
    | some e => .error e
    | none => .ok topic

/-- reloadConfig (lines 164-175). loadMqttConfig never throws (it catches
internally and returns the fallback), and Object.assign of plain records
cannot throw either, so the catch branch of reloadConfig is unreachable:
the function always returns true, and both CONFIG and MQTT_CONFIG take
the newly loaded values - the fallback ones when the resource is
malformed. -/
def reloadConfig (st : MqttState) (resource : Option MqttConfig)
    (rand : String) : Bool × MqttState :=
  let newConfig := loadMqttConfig resource rand
  (true, { st with CONFIG := newConfig, MQTT_CONFIG := newConfig.mqtt })

/-- getConfig (lines 178-180). -/
def getConfig (st : MqttState) : MqttConfig := st.CONFIG

/- ===== MongoDB document-store helper (src/unnamed/part_004) ===== -/

/-- The ad-hoc result objects the document-store helpers return. A field
absent from the JS object (undefined) is modelled by the default. -/
structure OpResult where
  success : Bool
  error : Option String := none
  degraded : Bool := false
  data : Option (List Doc) := none
  insertedId : Option String := none
  modifiedCount : Option Nat := none
  deletedCount : Option Nat := none
deriving DecidableEq, Repr

/-- Environment of the document-store helpers: the USE_MONGODB env var,
the module-level isConnected flag, whether getCollection yields a
collection (it returns null instead of throwing when the store or the
collection is unavailable), and the driver calls, each of which may
throw (modelled with Except). -/
structure MongoWorld where
  USE_MONGODB : Option String
  isConnected : Bool
  collectionAvailable : String → Bool
  insertOne : String → Doc → Except String String
  findToArray : String → Doc → Doc → Except String (List Doc)
  updateOne : String → Doc → Doc → Except String Nat
  deleteOne : String → Doc → Except String Nat
  aggregateToArray : String → List Doc → Except String (List Doc)

/-- shouldUseMongoDB (part_004 lines 85-87):
process.env.USE_MONGODB !== 'false' && isConnected. -/
def shouldUseMongoDB (w : MongoWorld) : Bool :=
  (!(w.USE_MONGODB == some "false")) && w.isConnected

/-- insertDocument (lines 114-136). Also returns the document actually
handed to collection.insertOne (none when no insert was attempted):
the caller's document spread first, then created_at and updated_at
stamped with the insertion time. -/
def insertDocument (w : MongoWorld) (collectionName : String)
    (document : Doc) (now : Nat) : OpResult × Option Doc :=
  if !(shouldUseMongoDB w) then
    ({ success := false, error := some "MongoDB not available",
       degraded := true }, none)
  else if !(w.collectionAvailable collectionName) then
    ({ success := false, error := some "Collection not available",
       degraded := true }, none)
  else
    let stored :=
      setKey (setKey document "created_at" (.date now)) "updated_at" (.date now)
    match w.insertOne collectionName stored with
    | .ok insertedId =>
        ({ success := true, insertedId := some insertedId }, some stored)
    | .error msg =>
        ({ success := false, error := some msg, degraded := true }, some stored)

/-- findDocuments (lines 145-164). -/
def findDocuments (w : MongoWorld) (collectionName : String)
    (query : Doc) (options : Doc) : OpResult :=
  if !(shouldUseMongoDB w) then
    { success := false, error := some "MongoDB not available",
      degraded := true, data := some [] }
  else if !(w.collectionAvailable collectionName) then
    { success := false, error := some "Collection not available",
      degraded := true, data := some [] }
  else
    match w.findToArray collectionName query options with
    | .ok documents => { success := true, data := some documents }
    | .error msg =>
        { success := false, error := some msg, degraded := true,
          data := some [] }

/-- updateDocument (lines 173-196): updateOne with a $set payload built
from the caller's patch spread first, then updated_at stamped. -/
def updateDocument (w : MongoWorld) (collectionName : String)
    (filter : Doc) (update : Doc) (now : Nat) : OpResult :=
  if !(shouldUseMongoDB w) then
    { success := false, error := some "MongoDB not available",
      degraded := true }
  else if !(w.collectionAvailable collectionName) then
    { success := false, error := some "Collection not available",
      degraded := true }
  else
    match w.updateOne collectionName filter
        (setKey update "updated_at" (.date now)) with
    | .ok modifiedCount => { success := true, modifiedCount := some modifiedCount }
    | .error msg => { success := false, error := some msg, degraded := true }

/-- deleteDocument (lines 204-221). -/
def deleteDocument (w : MongoWorld) (collectionName : String)
    (filter : Doc) : OpResult :=
  if !(shouldUseMongoDB w) then
    { success := false, error := some "MongoDB not available",
      degraded := true }
  else if !(w.collectionAvailable collectionName) then
    { success := false, error := some "Collection not available",
      degraded := true }
  else
    match w.deleteOne collectionName filter with
    | .ok deletedCount => { success := true, deletedCount := some deletedCount }
    | .error msg => { success := false, error := some msg, degraded := true }

/-- aggregateDocuments (lines 229-248). -/
def aggregateDocuments (w : MongoWorld) (collectionName : String)
    (pipeline : List Doc) : OpResult :=
  if !(shouldUseMongoDB w) then
    { success := false, error := some "MongoDB not available",
      degraded := true, data := some [] }
  else if !(w.collectionAvailable collectionName) then
    { success := false, error := some "Collection not available",
      degraded := true, data := some [] }
  else
    match w.aggregateToArray collectionName pipeline with
    | .ok documents => { success := true, data := some documents }
    | .error msg =>
        { success := false, error := some msg, degraded := true,
          data := some [] }

/- ===== src/config/database.js ===== -/

/-- A result row, a JS object keyed by column name. -/
abbrev Row := Doc

/-- Environment of the Database class: the outcome of this.connect()
and of the driver calls connection.execute / beginTransaction / commit /
rollback, each of which may throw. -/
structure DbWorld where
  connectOk : Except String Unit
  exec : String → List DocVal → Except String (List Row)
  beginOk : Except String Unit
  commitOk : Except String Unit
  rollbackOk : Except String Unit

/-- Database.query (database.js lines 45-54): ensure connected, execute,
return the rows; any error propagates to the caller. -/
def query (w : DbWorld) (sql : String) (params : List DocVal) :
    Except String (List Row) :=
  match w.connectOk with
  | .error e => .error e
  | .ok _ => w.exec sql params

/-- Database.fetchAll (lines 56-58): alias of query. -/
def fetchAll (w : DbWorld) (sql : String) (params : List DocVal) :
    Except String (List Row) :=
  query w sql params

/-- Database.fetchOne (lines 60-63):
rows.length > 0 ? rows[0] : null. -/
def fetchOne (w : DbWorld) (sql : String) (params : List DocVal) :
    Except String (Option Row) :=
  match query w sql params with
  | .error e => .error e
  | .ok rows => .ok (if rows.length > 0 then rows.head? else none)

/-- Operations successfully performed on the transactional connection,
in order. -/
inductive TxEvent where
  | begin
  | commit
  | rollback
deriving DecidableEq, Repr

/-- Database.transaction (lines 79-90). `fn` is the outcome of the
awaited callback. The try block runs beginTransaction, the callback and
commit; the catch block runs rollback and rethrows. The event list
records the connection operations that succeeded. -/
def transaction {A : Type} (w : DbWorld) (fn : Except String A) :
    Except String A × List TxEvent :=
  match w.connectOk with
  | .error e => (.error e, [])
  | .ok _ =>
    match w.beginOk with
    | .error e =>
      match w.rollbackOk with
      | .ok _ => (.error e, [.rollback])
      | .error e2 => (.error e2, [])
    | .ok _ =>
      match fn with
      | .ok a =>
        match w.commitOk with
        | .ok _ => (.ok a, [.begin, .commit])
        | .error e =>
          match w.rollbackOk with
          | .ok _ => (.error e, [.begin, .rollback])
          | .error e2 => (.error e2, [.begin])
      | .error e =>
        match w.rollbackOk with
        | .ok _ => (.error e, [.begin, .rollback])
        | .error e2 => (.error e2, [.begin])

/-- Math.ceil(t / l) for integers: the negated floor division of the
negation (Int.fdiv is floor division, exactly JS Math.floor). -/
def jsCeilDiv (t l : Int) : Int := -((-t).fdiv l)

/-- Greedy end of the JS regex match SELECT-dot-star-FROM: within the
characters following "SELECT ", the greatest position where " FROM"
starts such that no newline stands before it (the dot does not match a
newline). -/
def selectFromEnd (cs : List Char) : Option Nat :=
  ((List.range (cs.length + 1)).filter
    (fun p => (" FROM".toList.isPrefixOf (cs.drop p))
      && !((cs.take p).contains '\n'))).getLast?

/-- String.replace with the non-global JS pattern SELECT-dot-star-FROM:
rewrites the leftmost greedy match to "SELECT COUNT(*) as total FROM",
leaves the string unchanged when there is no match. -/
def replaceSelectFrom : List Char → List Char
  | [] => []
  | c :: rest =>
    if "SELECT ".toList.isPrefixOf (c :: rest) then
      match selectFromEnd ((c :: rest).drop 7) with
      | some p =>
          "SELECT COUNT(*) as total FROM".toList ++ (c :: rest).drop (7 + p + 5)
      | none => c :: replaceSelectFrom rest
    else c :: replaceSelectFrom rest

/-- String.replace with the JS pattern ORDER-BY-dot-star-dollar: drops
everything from the leftmost "ORDER BY" that reaches the end of the
string with no intervening newline (without the m flag the dollar only
matches the very end of the input). -/
def stripOrderBy : List Char → List Char
  | [] => []
  | c :: rest =>
    if ("ORDER BY".toList.isPrefixOf (c :: rest))
        && !(((c :: rest).drop 8).contains '\n') then
      []
    else c :: stripOrderBy rest

/-- The count-query rewrite inside Database.paginate (lines 95-96). -/
def countRewrite (sql : String) : String :=
  String.mk (stripOrderBy (replaceSelectFrom sql.toList))

/-- The pagination summary object Database.paginate returns. A count row
whose total field is missing or non-numeric leaves total undefined and
pages NaN in JS; both are modelled by none. -/
structure Pagination where
  page : Nat
  limit : Nat
  total : Option Int
  pages : Option Int
deriving DecidableEq, Repr

/-- The full result object of Database.paginate. -/
structure PaginateResult where
  data : List Row
  pagination : Pagination
deriving DecidableEq, Repr

/-- Database.paginate (lines 93-113): computes the offset, rewrites the
count query, reads total from its first row (destructuring an empty row
set gives undefined and the subsequent property read throws), appends
LIMIT/OFFSET to the data query and shapes the result. -/
def paginate (w : DbWorld) (sql : String) (params : List DocVal)
    (page : Nat) (limit : Nat) : Except String PaginateResult :=
  let offset := (page - 1) * limit
  let countSqlClean := countRewrite sql
  match query w countSqlClean params with
  | .error e => .error e
  | .ok countRows =>
    match countRows.head? with
    | none => .error "TypeError: cannot read total of undefined"
    | some totalResult =>
      let total : Option Int :=
        match getKey totalResult "total" with
        | some (.int n) => some n
        | _ => none
      let dataSql :=
        sql ++ " LIMIT " ++ toString limit ++ " OFFSET " ++ toString offset
      match query w dataSql params with
      | .error e => .error e
      | .ok data =>
          .ok { data := data,
                pagination := { page := page, limit := limit, total := total,
                                pages := total.map (fun t => jsCeilDiv t (limit : Int)) } }

/- ===== Concrete environments used to instantiate the theorems ===== -/

/-- A well-formed external broker config resource distinct from the
fallback. -/
def sampleResource : MqttConfig :=
  { mqtt := { host := "broker.example", port := 1884, username := "u",
              password := "p", clientId := "keos", clean := true,
              reconnectPeriod := 2000, connectTimeout := 10000,
              rejectUnauthorized := true }
    topics := [("prefix", "resort")]
    qos := [("default", 1)]
    retain := [("default", true)] }

/-- Bridge state fresh from module load, before any connect. -/
def stNoClient : MqttState := initMqttState none "zz"

/-- Bridge state after a broker-acknowledged connect. -/
def stLive : MqttState := (connectMQTT (initMqttState none "zz") true).1

/-- A document-store environment whose connection is down. -/
def degradedWorld : MongoWorld :=
  { USE_MONGODB := none, isConnected := false,
    collectionAvailable := fun _ => true,
    insertOne := fun _ _ => .ok "id0",
    findToArray := fun _ _ _ => .ok [],
    updateOne := fun _ _ _ => .ok 0,
    deleteOne := fun _ _ => .ok 0,
    aggregateToArray := fun _ _ => .ok [] }

/-- A healthy document-store environment. -/
def liveMongoWorld : MongoWorld :=
  { USE_MONGODB := none, isConnected := true,
    collectionAvailable := fun _ => true,
    insertOne := fun _ _ => .ok "id1",
    findToArray := fun _ _ _ => .ok [],
    updateOne := fun _ _ _ => .ok 1,
    deleteOne := fun _ _ => .ok 1,
    aggregateToArray := fun _ _ => .ok [] }

/-- A relational environment where every driver call succeeds and
queries yield no rows. -/
def okDbWorld : DbWorld :=
  { connectOk := .ok (), exec := fun _ _ => .ok [],
    beginOk := .ok (), commitOk := .ok (), rollbackOk := .ok () }

/-- A relational environment whose queries yield two rows. -/
def rowsDbWorld : DbWorld :=
  { connectOk := .ok (),
    exec := fun _ _ => .ok [[("id", DocVal.int 1)], [("id", DocVal.int 2)]],
    beginOk := .ok (), commitOk := .ok (), rollbackOk := .ok () }

/-- A relational environment whose queries yield one count row. -/
def countDbWorld : DbWorld :=
  { connectOk := .ok (),
    exec := fun _ _ => .ok [[("total", DocVal.int 7)]],
    beginOk := .ok (), commitOk := .ok (), rollbackOk := .ok () }

/- ===== Helper lemmas ===== -/

/-- Writing a key then reading it back yields the written value. -/
theorem getKey_setKey_self (d : Doc) (k : String) (v : DocVal) :
    getKey (setKey d k v) k = some v := by
  induction d with
  | nil => simp [setKey, getKey]
  | cons p rest ih =>
    obtain ⟨k0, v0⟩ := p
    by_cases h : k0 = k
    · simp [setKey, getKey, h]
    · simp [setKey, getKey, h, ih]

/-- Writing a key leaves every other key unchanged. -/
theorem getKey_setKey_other (d : Doc) (k k2 : String) (v : DocVal)
    (h : k ≠ k2) : getKey (setKey d k v) k2 = getKey d k2 := by
  induction d with
  | nil => simp [setKey, getKey, h]
  | cons p rest ih =>
    obtain ⟨k0, v0⟩ := p
    by_cases h0 : k0 = k
    · subst h0; simp [setKey, getKey, h]
    · by_cases h2 : k0 = k2
      · subst h2; simp [setKey, getKey, h0, Ne.symm h]
      · simp [setKey, getKey, h0, h2, ih]

/-- Math.ceil of a nonnegative integer quotient agrees with the natural
ceiling-division formula. -/
theorem jsCeilDiv_natCast (m k : Nat) (hk : 0 < k) :
    jsCeilDiv (m : Int) (k : Int) = (((m + k - 1) / k : Nat) : Int) := by
  have hk0 : (0 : Int) < (k : Int) := by exact_mod_cast hk
  have hdm := Nat.div_add_mod (m + k - 1) k
  have hml : (m + k - 1) % k < k := Nat.mod_lt _ hk
  have hub : k * ((m + k - 1) / k) ≤ m + k - 1 := by omega
  have hlb : m ≤ k * ((m + k - 1) / k) := by omega
  set n := (m + k - 1) / k with hn
  have key : (-(m : Int)) / (k : Int) = -(n : Int) := by
    have huniq := (@Int.ediv_emod_unique (-(m : Int)) (k : Int)
        ((k : Int) * (n : Int) - (m : Int)) (-(n : Int)) hk0).mpr
    exact (huniq ⟨by ring, by omega, by omega⟩).1
  unfold jsCeilDiv
  rw [Int.fdiv_eq_ediv _ (Int.le_of_lt hk0), key, Int.neg_neg]

/- ===== Claim theorems ===== -/

/-- C1, counterexample: starting from a configuration loaded from a
valid resource, reloadConfig with a malformed resource returns true -
not false - and getConfig afterwards differs from the previously loaded
configuration, so the claim that a malformed reload returns false and
leaves the configuration intact is false on this concrete input. -/
theorem reloadConfig_malformed_counterexample :
    (reloadConfig (initMqttState (some sampleResource) "aa") none "bb").1 = true ∧
    getConfig (reloadConfig (initMqttState (some sampleResource) "aa") none "bb").2 ≠
      getConfig (initMqttState (some sampleResource) "aa") := by
  exact ⟨rfl, by decide⟩

/-- C1, amended: reloadConfig with a malformed resource returns true and
replaces the loaded configuration with the built-in fallback default
(carrying the fresh random suffix); it never leaves the prior
configuration in place and never returns false. -/
theorem reloadConfig_malformed_amended (st : MqttState) (rand : String) :
    (reloadConfig st none rand).1 = true ∧
    getConfig (reloadConfig st none rand).2 = fallbackMqttConfig rand :=
  ⟨rfl, rfl⟩

/-- C2, counterexample: two successive connect invocations on the state
loaded at module initialization hand the transport the same client
identifier, so the claim that the later invocation carries a fresh
random suffix distinct from the earlier one is false on this concrete
input. -/
theorem connectMQTT_clientId_counterexample :
    (connectMQTT ((connectMQTT (initMqttState none "abcd") true).1) true).2 =
      (connectMQTT (initMqttState none "abcd") true).2 := by
  rfl

/-- C2, amended: the random client-identifier suffix is generated once
per configuration load (module initialization or reloadConfig), not per
connect: connectMQTT always uses the clientId currently stored in
MQTT_CONFIG and leaves it unchanged, so successive connects with no
intervening reload use the identical identifier. -/
theorem connectMQTT_clientId_amended (st : MqttState) (a b : Bool) :
    (connectMQTT st a).2 = st.MQTT_CONFIG.clientId ∧
    (connectMQTT (connectMQTT st a).1 b).2 = (connectMQTT st a).2 :=
  ⟨rfl, rfl⟩

/-- C6: shouldUseMongoDB is true exactly when the USE_MONGODB env flag
is not the string false and the store state is connected; in particular
it is false whenever the flag disables the feature, whatever the
connection state. -/
theorem shouldUseMongoDB_iff (w : MongoWorld) :
    shouldUseMongoDB w = true ↔
      (w.USE_MONGODB ≠ some "false" ∧ w.isConnected = true) := by
  simp [shouldUseMongoDB]

/-- C7: whenever query succeeds, fetchOne returns the first row of the
row sequence query returns, and null (modelled by none) when that
sequence is empty. -/
theorem fetchOne_first_row (w : DbWorld) (sql : String)
    (params : List DocVal) (rows : List Row)
    (h : query w sql params = .ok rows) :
    fetchOne w sql params = .ok rows.head? := by
  simp only [fetchOne, h]
  cases rows <;> simp

/-- C7 witness: concrete environments with a two-row result and with an
empty result. -/
theorem fetchOne_first_row_witness :
    fetchOne rowsDbWorld "SELECT id FROM admins" [] =
      .ok (some [("id", DocVal.int 1)]) ∧
    fetchOne okDbWorld "SELECT id FROM admins" [] = .ok none :=
  ⟨fetchOne_first_row rowsDbWorld "SELECT id FROM admins" []
      [[("id", DocVal.int 1)], [("id", DocVal.int 2)]] rfl,
   fetchOne_first_row okDbWorld "SELECT id FROM admins" [] [] rfl⟩

/-- C3: the five document-store operations are total functions into
result objects (no exception escapes: every transport error and every
unavailable-store condition in the environment is absorbed), every
unsuccessful result carries degraded true and an error message, and for
find and aggregate the data field is always a sequence - the empty one
on any failure - never null. -/
theorem mongo_never_raises (w : MongoWorld) (c : String)
    (d filter update q o : Doc) (pipeline : List Doc) (now : Nat) :
    ((insertDocument w c d now).1.success = false →
        (insertDocument w c d now).1.degraded = true ∧
        (insertDocument w c d now).1.error.isSome = true) ∧
    ((findDocuments w c q o).success = false →
        (findDocuments w c q o).degraded = true ∧
        (findDocuments w c q o).error.isSome = true ∧
        (findDocuments w c q o).data = some []) ∧
    ((updateDocument w c filter update now).success = false →
        (updateDocument w c filter update now).degraded = true ∧
        (updateDocument w c filter update now).error.isSome = true) ∧
    ((deleteDocument w c filter).success = false →
        (deleteDocument w c filter).degraded = true ∧
        (deleteDocument w c filter).error.isSome = true) ∧
    ((aggregateDocuments w c pipeline).success = false →
        (aggregateDocuments w c pipeline).degraded = true ∧
        (aggregateDocuments w c pipeline).error.isSome = true ∧
        (aggregateDocuments w c pipeline).data = some []) ∧
    (findDocuments w c q o).data.isSome = true ∧
    (aggregateDocuments w c pipeline).data.isSome = true := by
  refine ⟨?_, ?_, ?_, ?_, ?_, ?_, ?_⟩
  · simp only [insertDocument]
    cases hins : w.insertOne c
        (setKey (setKey d "created_at" (DocVal.date now)) "updated_at"
          (DocVal.date now)) <;>
      by_cases h1 : shouldUseMongoDB w = true <;>
      by_cases h2 : w.collectionAvailable c = true <;>
      simp [h1, h2, hins]
  · simp only [findDocuments]
    cases hf : w.findToArray c q o <;>
      by_cases h1 : shouldUseMongoDB w = true <;>
      by_cases h2 : w.collectionAvailable c = true <;>
      simp [h1, h2, hf]
  · simp only [updateDocument]
    cases hu : w.updateOne c filter (setKey update "updated_at" (DocVal.date now)) <;>
      by_cases h1 : shouldUseMongoDB w = true <;>
      by_cases h2 : w.collectionAvailable c = true <;>
      simp [h1, h2, hu]
  · simp only [deleteDocument]
    cases hd : w.deleteOne c filter <;>
      by_cases h1 : shouldUseMongoDB w = true <;>
      by_cases h2 : w.collectionAvailable c = true <;>
      simp [h1, h2, hd]
  · simp only [aggregateDocuments]
    cases ha : w.aggregateToArray c pipeline <;>
      by_cases h1 : shouldUseMongoDB w = true <;>
      by_cases h2 : w.collectionAvailable c = true <;>
      simp [h1, h2, ha]
  · simp only [findDocuments]
    cases hf : w.findToArray c q o <;>
      by_cases h1 : shouldUseMongoDB w = true <;>
      by_cases h2 : w.collectionAvailable c = true <;>
      simp [h1, h2, hf]
  · simp only [aggregateDocuments]
    cases ha : w.aggregateToArray c pipeline <;>
      by_cases h1 : shouldUseMongoDB w = true <;>
      by_cases h2 : w.collectionAvailable c = true <;>
      simp [h1, h2, ha]

/-- C3 witness: a disconnected store answers find with a degraded result
carrying the empty sequence. -/
theorem mongo_never_raises_witness :
    (findDocuments degradedWorld "device_logs" [] []).degraded = true ∧
    (findDocuments degradedWorld "device_logs" [] []).data = some [] := by
  have h := (mongo_never_raises degradedWorld "device_logs"
      [] [] [] [] [] [] 0).2.1 rfl
  exact ⟨h.1, h.2.2⟩

/-- C4: under a working transactional connection, transaction commits
and returns the callback result when the callback returns normally, and
rolls back and re-raises the identical exception when the callback
throws - the event trace shows no commit in that case, so no work is
committed. -/
theorem transaction_spec {A : Type} (w : DbWorld) (fn : Except String A)
    (hc : w.connectOk = .ok ()) (hb : w.beginOk = .ok ())
    (hcm : w.commitOk = .ok ()) (hr : w.rollbackOk = .ok ()) :
    (∀ a, fn = .ok a → transaction w fn = (.ok a, [.begin, .commit])) ∧
    (∀ e, fn = .error e → transaction w fn = (.error e, [.begin, .rollback])) := by
  constructor
  · intro a ha; subst ha; simp [transaction, hc, hb, hcm]
  · intro e he; subst he; simp [transaction, hc, hb, hr]

/-- C4 witness: a normal callback commits with its result; a throwing
callback rolls back and re-raises. -/
theorem transaction_spec_witness :
    transaction okDbWorld (Except.ok (5 : Nat)) =
      (.ok 5, [.begin, .commit]) ∧
    transaction okDbWorld (Except.error "boom" : Except String Nat) =
      (.error "boom", [.begin, .rollback]) :=
  ⟨(transaction_spec okDbWorld (Except.ok 5) rfl rfl rfl rfl).1 5 rfl,
   (transaction_spec okDbWorld (Except.error "boom") rfl rfl rfl rfl).2 "boom" rfl⟩

/-- C5: with no live broker connection (no client, or a client the
broker has not acknowledged) publishMessage rejects immediately with the
not-connected error; with a live connection it resolves exactly when the
broker layer confirms the publish. -/
theorem publishMessage_connection_spec (st : MqttState)
    (stringify : JsonV → String) (topic : String) (message : JsMessage)
    (options : PublishOpts) (brokerError : Option String) :
    (isConnected st = false →
      publishMessage st stringify topic message options brokerError =
        .error "MQTT client not connected") ∧
    (isConnected st = true →
      ((∃ r, publishMessage st stringify topic message options brokerError =
          .ok r) ↔ brokerError = none)) := by
  constructor
  · intro h; simp [publishMessage, h]
  · intro h
    cases brokerError with
    | none => simp [publishMessage, h]
    | some e => simp [publishMessage, h]

/-- C5 witness: publish before any connect is the not-connected hard
error; publish on an acknowledged connection with broker confirmation
resolves. -/
theorem publishMessage_connection_spec_witness :
    publishMessage stNoClient (fun _ => "") "hotel/1/cmd" (.str "m") {} none =
      .error "MQTT client not connected" ∧
    (∃ r, publishMessage stLive (fun _ => "") "hotel/1/cmd" (.str "m") {} none =
      .ok r) :=
  ⟨(publishMessage_connection_spec stNoClient (fun _ => "") "hotel/1/cmd"
      (.str "m") {} none).1 rfl,
   ((publishMessage_connection_spec stLive (fun _ => "") "hotel/1/cmd"
      (.str "m") {} none).2 rfl).mpr rfl⟩

/-- C8: the handler registered by subscribeToTopic invokes the callback
exactly when the received topic string equals the subscribed topic - so
subscriptions on different topics never cross-deliver - and it passes
the structured parse of the message when parsing succeeds, the raw text
otherwise. -/
theorem subscribeToTopic_delivery (topic : String)
    (parse : String → Option JsonV) (receivedTopic message : String) :
    ((onMessage topic parse receivedTopic message).isSome = true ↔
      receivedTopic = topic) ∧
    (∀ j, parse message = some j →
      onMessage topic parse topic message = some (.parsed j)) ∧
    (parse message = none →
      onMessage topic parse topic message = some (.raw message)) := by
  refine ⟨?_, ?_, ?_⟩
  · by_cases h : receivedTopic = topic <;> simp [onMessage, h]
  · intro j hj; simp [onMessage, hj]
  · intro hn; simp [onMessage, hn]

/-- C8 witness: a parsed payload and a raw fallback payload, both on an
exactly matching topic. -/
theorem subscribeToTopic_delivery_witness :
    onMessage "hotel/1/status" (fun _ => some (.str "up")) "hotel/1/status"
      "msg" = some (.parsed (.str "up")) ∧
    onMessage "hotel/1/status" (fun _ => none) "hotel/1/status" "msg" =
      some (.raw "msg") :=
  ⟨(subscribeToTopic_delivery "hotel/1/status" (fun _ => some (.str "up"))
      "hotel/1/status" "msg").2.1 (.str "up") rfl,
   (subscribeToTopic_delivery "hotel/1/status" (fun _ => none)
      "hotel/1/status" "msg").2.2 rfl⟩

/-- C9: with the store enabled, connected and the collection available,
insertDocument hands the driver the caller's document with created_at
and updated_at stamped to the insertion time, overriding any such
fields the caller supplied, and leaving every other field unchanged. -/
theorem insertDocument_timestamps (w : MongoWorld) (c : String) (d : Doc)
    (now : Nat) (h1 : shouldUseMongoDB w = true)
    (h2 : w.collectionAvailable c = true) :
    ∃ stored, (insertDocument w c d now).2 = some stored ∧
      getKey stored "created_at" = some (.date now) ∧
      getKey stored "updated_at" = some (.date now) ∧
      ∀ k, k ≠ "created_at" → k ≠ "updated_at" →
        getKey stored k = getKey d k := by
  refine ⟨setKey (setKey d "created_at" (DocVal.date now)) "updated_at"
      (DocVal.date now), ?_, ?_, ?_, ?_⟩
  · simp only [insertDocument]
    cases hins : w.insertOne c
        (setKey (setKey d "created_at" (DocVal.date now)) "updated_at"
          (DocVal.date now)) <;>
      simp [h1, h2, hins]
  · rw [getKey_setKey_other _ _ _ _ (by decide), getKey_setKey_self]
  · rw [getKey_setKey_self]
  · intro k hk1 hk2
    rw [getKey_setKey_other _ _ _ _ (Ne.symm hk2),
        getKey_setKey_other _ _ _ _ (Ne.symm hk1)]

/-- C9 witness: a caller-supplied created_at is overridden by the stamp
and the remaining field survives. -/
theorem insertDocument_timestamps_witness :
    ∃ stored,
      (insertDocument liveMongoWorld "device_logs"
        [("created_at", DocVal.int 0), ("x", DocVal.int 7)] 99).2 = some stored ∧
      getKey stored "created_at" = some (.date 99) ∧
      getKey stored "updated_at" = some (.date 99) ∧
      ∀ k, k ≠ "created_at" → k ≠ "updated_at" →
        getKey stored k =
          getKey [("created_at", DocVal.int 0), ("x", DocVal.int 7)] k :=
  insertDocument_timestamps liveMongoWorld "device_logs"
    [("created_at", DocVal.int 0), ("x", DocVal.int 7)] 99 rfl rfl

/-- C10: for positive page and limit, when the rewritten count query
yields a first row with an integer total and the data query (the input
query with LIMIT limit OFFSET (page-1)*limit appended) succeeds,
paginate returns that data with a pagination object echoing page and
limit and whose pages equals the ceiling of total divided by limit. -/
theorem paginate_spec (w : DbWorld) (sql : String) (params : List DocVal)
    (page limit : Nat) (countRows : List Row) (cr : Row) (t : Int)
    (data : List Row) (hp : 0 < page) (hl : 0 < limit)
    (hcount : query w (countRewrite sql) params = .ok countRows)
    (hhead : countRows.head? = some cr)
    (htot : getKey cr "total" = some (.int t)) (ht : 0 ≤ t)
    (hdata : query w (sql ++ " LIMIT " ++ toString limit ++ " OFFSET " ++
        toString ((page - 1) * limit)) params = .ok data) :
    paginate w sql params page limit = .ok
      { data := data,
        pagination := { page := page, limit := limit, total := some t,
                        pages := some (((t.toNat + limit - 1) / limit : Nat) :
                          Int) } } := by
  have hpages : jsCeilDiv t (limit : Int) =
      (((t.toNat + limit - 1) / limit : Nat) : Int) := by
    have hcast := jsCeilDiv_natCast t.toNat limit hl
    rwa [Int.toNat_of_nonneg ht] at hcast
  simp [paginate, hcount, hhead, htot, hdata, hpages]

/-- C10 witness: page 2 with limit 3 over a count of 7 gives pages 3 and
LIMIT 3 OFFSET 3 on the data query. -/
theorem paginate_spec_witness :
    paginate countDbWorld "SELECT id FROM orders" [] 2 3 = .ok
      { data := [[("total", DocVal.int 7)]],
        pagination := { page := 2, limit := 3, total := some 7,
                        pages := some 3 } } := by
  have h := paginate_spec countDbWorld "SELECT id FROM orders" [] 2 3
      [[("total", DocVal.int 7)]] [("total", DocVal.int 7)] 7
      [[("total", DocVal.int 7)]] (by decide) (by decide) rfl rfl rfl
      (by decide) rfl
  exact h

end Keos
